import Mathlib

/-!
Verification development for the sales-reply-coach backend test harness
(`backend_test.py` and `backend_test_simple.py`).

The two Python scripts are shallowly embedded below.  Text is modelled as
`List Char`; JSON values returned by `response.json()` are modelled by the
`Json` inductive; Python dictionary/string operations that can raise
(`x["k"]`, `x.get(...)`, `"a" in x`, `x.lower()`) are modelled as `Except`
computations whose error carries the exception name; probe methods thread an
explicit record `St` mirroring the `SalesReplyCoachTester` object's fields.
Timestamps and the `details` dictionary of logged results are external
presentation data and are omitted from `TestResult`.
-/

/-- JSON value as produced by `response.json()` in the scripts. -/
inductive Json where
  | null
  | bool (b : Bool)
  | num (n : Int)
  | str (s : List Char)
  | arr (elems : List Json)
  | obj (fields : List (List Char × Json))

/-- Python truthiness of a JSON value (`if x:`). -/
def truthy : Json → Bool
  | .null => false
  | .bool b => b
  | .num n => n ≠ 0
  | .str s => ¬ s.isEmpty
  | .arr es => ¬ es.isEmpty
  | .obj fs => ¬ fs.isEmpty

/-- `needle` occurs as a contiguous substring of the second list
(Python `needle in haystack` for strings). -/
def substr (needle : List Char) : List Char → Bool
  | [] => needle.isEmpty
  | c :: t => needle.isPrefixOf (c :: t) || substr needle t

/-- Python `d.get(k, default)`: only dictionaries have `.get`; any other
value raises `AttributeError`. -/
def pyGetD (j : Json) (k : List Char) (d : Json) : Except (List Char) Json :=
  match j with
  | .obj fs => .ok ((fs.lookup k).getD d)
  | _ => .error "AttributeError".data

/-- Python `k in j` for a string key `k`: key membership for dicts, element
equality for lists, substring for strings, `TypeError` otherwise. -/
def pyIn (k : List Char) (j : Json) : Except (List Char) Bool :=
  match j with
  | .obj fs => .ok (fs.any (fun f => f.1 == k))
  | .arr es => .ok (es.any (fun e => match e with | .str s => s == k | _ => false))
  | .str s => .ok (substr k s)
  | _ => .error "TypeError".data

/-- Python `j[k]` for a string key `k`: dict indexing (`KeyError` when
absent), `TypeError` on any non-dict value. -/
def pyIndex (j : Json) (k : List Char) : Except (List Char) Json :=
  match j with
  | .obj fs =>
    match fs.lookup k with
    | some v => .ok v
    | none => .error "KeyError".data
  | _ => .error "TypeError".data

/-- Python `j.lower()`: strings only, `AttributeError` otherwise. -/
def pyLower (j : Json) : Except (List Char) (List Char) :=
  match j with
  | .str s => .ok (s.map Char.toLower)
  | _ => .error "AttributeError".data

/-- Interpolation of a value into an f-string (`str(x)`).  Composite values
never reach an f-string in the claims below; they get a fixed placeholder. -/
def pyStr : Json → List Char
  | .null => "None".data
  | .bool true => "True".data
  | .bool false => "False".data
  | .num n => (toString n).data
  | .str s => s
  | .arr _ => "<list>".data
  | .obj _ => "<dict>".data

/-- Decimal rendering of a numeric HTTP status for f-strings. -/
def natStr (n : Nat) : List Char := (Nat.repr n).data

/-- The success test both scripts apply to a parsed tRPC response:
`"result" in response and response["result"].get("data", {}).get("success")`. -/
def checkSuccess (resp : Json) : Except (List Char) Bool := do
  let hasRes ← pyIn "result".data resp
  if hasRes then
    let r ← pyIndex resp "result".data
    let d ← pyGetD r "data".data (.obj [])
    let s ← pyGetD d "success".data .null
    pure (truthy s)
  else
    pure false

/-- The error-message extraction used on failure paths:
`response.get("error", {}).get("json", {}).get("message", "Unknown error")`. -/
def getErrMsg (resp : Json) : Except (List Char) Json := do
  let e ← pyGetD resp "error".data (.obj [])
  let j ← pyGetD e "json".data (.obj [])
  pyGetD j "message".data (.str "Unknown error".data)

namespace BackendTest

/-!
Embedding of `backend_test.py`.  The external world (HTTP transport, log
stream, report sink) is a record `Env`; each probe method maps a state `St`
(the mutable fields of `SalesReplyCoachTester`) to a new state plus either a
normal Boolean return or a propagating Python exception (`Except`).
-/

/-- Outcome of one HTTP request to a tRPC procedure: either the client call
raised (connection error / timeout), or a response arrived whose body either
parses as JSON or does not. -/
inductive CallResult where
  | exn (msg : List Char)
  | resp (status : Nat) (body : Except (List Char) Json)

/-- The external collaborators of `backend_test.py`.
`rootGet` is the `GET /` of `test_server_health` (status and body text, or a
connection exception); `call` answers each tRPC request, keyed by procedure
name, HTTP-method flag (`true` = GET) and input payload; `logTail` is the
`tail -50` window of the backend log when the subprocess succeeds;
`reportWriteOk` tells whether writing the final JSON report succeeds. -/
structure Env where
  rootGet : Except (List Char) (Nat × List Char)
  call : List Char → Bool → Json → CallResult
  logTail : Option (List Char)
  reportWriteOk : Bool

/-- One entry of `self.test_results` (timestamp and `details` omitted). -/
structure TestResult where
  test : List Char
  success : Bool
  message : List Char
deriving DecidableEq

/-- The mutable fields of `SalesReplyCoachTester`.  `calls` is a ghost field
recording every tRPC request issued (procedure, GET flag, input payload); it
is not part of the Python object and exists only so that theorems can state
which endpoints a probe invoked. -/
structure St where
  tests_run : Nat
  tests_passed : Nat
  test_results : List TestResult
  verification_code : Option (List Char)
  supabase_token : Option (List Char)
  session_cookie : Option (List Char)
  calls : List (List Char × Bool × Json)

/-- `__init__`: counters zero, result list empty, all tokens `None`. -/
def initSt : St := ⟨0, 0, [], none, none, none, []⟩

/-- The per-run identity; the `int(time.time())` suffix is abstracted to a
fixed placeholder since no claim concerns its value. -/
def testEmail : List Char := "testuser_TS@example.com".data

/-- `log_test`: bump the run counter, bump the pass counter on success,
append the result record. -/
def log_test (st : St) (name : List Char) (success : Bool) (message : List Char) : St :=
  { st with
    tests_run := st.tests_run + 1
    tests_passed := st.tests_passed + (if success then 1 else 0)
    test_results := st.test_results ++ [⟨name, success, message⟩] }

/-- `make_trpc_request`: issue the request; `response.json()` is wrapped in a
bare `except` that replaces an unparseable body by the dictionary
`dict(error = "Invalid JSON response: " + text[:200], status_code = status)`.
A transport exception from the request itself is not caught and propagates. -/
def make_trpc_request (env : Env) (procedure : List Char) (input_data : Json)
    (isGet : Bool) : Except (List Char) Json :=
  match env.call procedure isGet input_data with
  | .exn m => .error m
  | .resp _ (.ok j) => .ok j
  | .resp status (.error text) =>
    .ok (.obj [("error".data, .str ("Invalid JSON response: ".data ++ text.take 200)),
               ("status_code".data, .num status)])

/-- Record a tRPC request in the ghost call list. -/
def logCall (st : St) (procedure : List Char) (isGet : Bool) (input_data : Json) : St :=
  { st with calls := st.calls ++ [(procedure, isGet, input_data)] }

/-- `test_server_health`: `GET /` inside `try`; HTTP 200 or 404 counts as a
running server; any other status or a connection exception is a failure. -/
def test_server_health (env : Env) (st : St) : St × Bool :=
  match env.rootGet with
  | .ok (code, text) =>
    if code == 200 || code == 404 then
      (log_test st "Server Health Check".data true
        ("Server is running (HTTP ".data ++ natStr code ++ ")".data), true)
    else
      (log_test st "Server Health Check".data false
        ("HTTP ".data ++ natStr code ++ ": ".data ++ text.take 200), false)
  | .error e =>
    (log_test st "Server Health Check".data false ("Connection error: ".data ++ e), false)

/-- `test_database_connectivity`: call `auth.me` (GET) inside a `try` that
converts any exception into a failing result; a `database`/`connection`
error message is a failure, any other error envelope counts as evidence the
database answered. -/
def test_database_connectivity (env : Env) (st : St) : St × Bool :=
  let st1 := logCall st "auth.me".data true (.obj [])
  let fail := fun (e : List Char) =>
    (log_test st1 "Database Connectivity".data false
      ("Database connectivity error: ".data ++ e), false)
  match make_trpc_request env "auth.me".data (.obj []) true with
  | .error e => fail e
  | .ok resp =>
    match pyIn "error".data resp with
    | .error e => fail e
    | .ok false =>
      (log_test st1 "Database Connectivity".data true
        "Database connection successful".data, true)
    | .ok true =>
      match pyIndex resp "error".data with
      | .error e => fail e
      | .ok ev =>
        match pyGetD ev "json".data (.obj []) with
        | .error e => fail e
        | .ok jv =>
          match pyGetD jv "message".data (.str "Unknown error".data) with
          | .error e => fail e
          | .ok msgJ =>
            match pyLower msgJ with
            | .error e => fail e
            | .ok low =>
              if substr "database".data low || substr "connection".data low then
                (log_test st1 "Database Connectivity".data false
                  ("Database connection issue: ".data ++ pyStr msgJ), false)
              else
                (log_test st1 "Database Connectivity".data true
                  "Database is accessible (auth error expected)".data, true)

/-- The signup payload of `test_user_signup`. -/
def signupData : Json :=
  .obj [("email".data, .str testEmail),
        ("password".data, .str "TestPass123!".data),
        ("name".data, .str "Test User".data)]

/-- `test_user_signup`: POST `auth.sendVerificationCode`; no `try`, so a
transport exception or a dictionary-shape exception propagates.  Note that
this method never assigns `self.verification_code`. -/
def test_user_signup (env : Env) (st : St) : St × Except (List Char) Bool :=
  let st1 := logCall st "auth.sendVerificationCode".data false signupData
  match make_trpc_request env "auth.sendVerificationCode".data signupData false with
  | .error e => (st1, .error e)
  | .ok resp =>
    match checkSuccess resp with
    | .error e => (st1, .error e)
    | .ok true =>
      (log_test st1 "Send Verification Code".data true
        "Verification code sent successfully".data, .ok true)
    | .ok false =>
      match getErrMsg resp with
      | .error e => (st1, .error e)
      | .ok msgJ =>
        (log_test st1 "Send Verification Code".data false
          ("Signup failed: ".data ++ pyStr msgJ), .ok false)

end BackendTest

namespace BackendTest

/-- The text of the label in the first pattern `VERIFICATION CODE: (\d6)`. -/
def lbl1 : List Char := "VERIFICATION CODE: ".data

/-- The text of the label in the second pattern
`Verification code for [^:]+: (\d6)`. -/
def lbl2 : List Char := "Verification code for ".data

/-- Try to read exactly six digits at the head of `cs` (the `(\d6)` group). -/
def sixDigits (cs : List Char) : Option (List Char) :=
  let d := cs.take 6
  if d.length == 6 && d.all Char.isDigit then some d else none

/-- Match of the first pattern anchored at the current position: the literal
label followed by six digits. -/
def matchPat1At (cs : List Char) : Option (List Char) :=
  if lbl1.isPrefixOf cs then sixDigits (cs.drop lbl1.length) else none

/-- Skip the `[^:]+` part: consume characters up to the first colon,
requiring at least one, and return the characters after the colon. -/
def skipNonColon : List Char → Nat → Option (List Char)
  | [], _ => none
  | c :: rest, k => if c == ':' then (if k == 0 then none else some rest) else skipNonColon rest (k + 1)

/-- Match of the second pattern anchored at the current position: the label,
one or more non-colon characters, a colon, a space, six digits. -/
def matchPat2At (cs : List Char) : Option (List Char) :=
  if lbl2.isPrefixOf cs then
    match skipNonColon (cs.drop lbl2.length) 0 with
    | some (' ' :: rest) => sixDigits rest
    | _ => none
  else none

/-- `re.search`: try the anchored match at every position from left to right
(i.e. from the oldest towards the most recent text) and return the first hit. -/
def searchL (f : List Char → Option (List Char)) : List Char → Option (List Char)
  | [] => f []
  | c :: rest =>
    match f (c :: rest) with
    | some r => some r
    | none => searchL f rest

/-- `get_verification_code_from_logs`: when the `tail -50` subprocess
succeeds, `re.search` the first pattern over the whole window, then, only if
it found nothing, the second pattern; everything is inside a bare `except`
returning `None`. -/
def get_verification_code_from_logs (env : Env) : Option (List Char) :=
  match env.logTail with
  | none => none
  | some logs =>
    match searchL matchPat1At logs with
    | some c => some c
    | none => searchL matchPat2At logs

/-- The `auth.verifyCode` payload for a given code. -/
def verifyData (code : List Char) : Json :=
  .obj [("email".data, .str testEmail), ("code".data, .str code)]

/-- The fallback guesses tried when no log-derived code exists. -/
def testCodes : List (List Char) :=
  ["123456".data, "000000".data, "111111".data]

/-- The `for code in test_codes` loop of `test_verify_code`: POST each guess
in order, stop at the first success envelope (assigning
`self.verification_code` before logging), log the final failure when the
list is exhausted.  No `try`, so exceptions propagate. -/
def tryGuess (env : Env) (st : St) : List (List Char) → St × Except (List Char) Bool
  | [] =>
    (log_test st "Verify Code".data false "No valid verification code found".data, .ok false)
  | code :: rest =>
    let st1 := logCall st "auth.verifyCode".data false (verifyData code)
    match make_trpc_request env "auth.verifyCode".data (verifyData code) false with
    | .error e => (st1, .error e)
    | .ok resp =>
      match checkSuccess resp with
      | .error e => (st1, .error e)
      | .ok true =>
        (log_test { st1 with verification_code := some code } "Verify Code".data true
          ("Email verification successful with code: ".data ++ code), .ok true)
      | .ok false => tryGuess env st1 rest

/-- `test_verify_code`: assign `self.verification_code` from the log scan;
if absent run the guess loop; if present POST `auth.verifyCode` once with
the log-derived code.  No `try`, so exceptions propagate. -/
def test_verify_code (env : Env) (st : St) : St × Except (List Char) Bool :=
  let code? := get_verification_code_from_logs env
  let st0 := { st with verification_code := code? }
  match code? with
  | none => tryGuess env st0 testCodes
  | some code =>
    let st1 := logCall st0 "auth.verifyCode".data false (verifyData code)
    match make_trpc_request env "auth.verifyCode".data (verifyData code) false with
    | .error e => (st1, .error e)
    | .ok resp =>
      match checkSuccess resp with
      | .error e => (st1, .error e)
      | .ok true =>
        (log_test st1 "Verify Code".data true "Email verification successful".data, .ok true)
      | .ok false =>
        match getErrMsg resp with
        | .error e => (st1, .error e)
        | .ok msgJ =>
          (log_test st1 "Verify Code".data false
            ("Verification failed: ".data ++ pyStr msgJ), .ok false)

/-- `test_knowledge_base_endpoints`: GET `brain.getStats` inside a `try`
that converts any exception into a failing result.  An error envelope is a
success exactly when the message contains the literal `UNAUTHORIZED`
(case-sensitively) or, after lower-casing, contains `authentication`; a
response without an error key is also a success. -/
def test_knowledge_base_endpoints (env : Env) (st : St) : St × Bool :=
  let st1 := logCall st "brain.getStats".data true (.obj [])
  let fail := fun (e : List Char) =>
    (log_test st1 "Knowledge Base Access".data false
      ("Error testing knowledge base: ".data ++ e), false)
  match make_trpc_request env "brain.getStats".data (.obj []) true with
  | .error e => fail e
  | .ok resp =>
    match pyIn "error".data resp with
    | .error e => fail e
    | .ok false =>
      (log_test st1 "Knowledge Base Access".data true
        "Knowledge base endpoints accessible".data, true)
    | .ok true =>
      match pyIndex resp "error".data with
      | .error e => fail e
      | .ok ev =>
        match pyGetD ev "json".data (.obj []) with
        | .error e => fail e
        | .ok jv =>
          match pyGetD jv "message".data (.str "Unknown error".data) with
          | .error e => fail e
          | .ok msgJ =>
            match pyIn "UNAUTHORIZED".data msgJ with
            | .error e => fail e
            | .ok true =>
              (log_test st1 "Knowledge Base Access".data true
                "Endpoints require authentication (correct behavior)".data, true)
            | .ok false =>
              match pyLower msgJ with
              | .error e => fail e
              | .ok low =>
                if substr "authentication".data low then
                  (log_test st1 "Knowledge Base Access".data true
                    "Endpoints require authentication (correct behavior)".data, true)
                else
                  (log_test st1 "Knowledge Base Access".data false
                    ("Unexpected error: ".data ++ pyStr msgJ), false)

/-- `run_all_tests`: health check first, returning `False` outright when it
fails; then the database probe; then `self.test_environment_variables()`,
which is not an attribute of the class, so an `AttributeError` is raised and
propagates.  The remaining statements of the source (signup, the
`verification_code`-guarded verify step, login, knowledge base, transcript
capability, the summary printing and the final strict verdict
`tests_passed == tests_run`) are unreachable. -/
def run_all_tests (env : Env) (st : St) : St × Except (List Char) Bool :=
  match test_server_health env st with
  | (st1, false) => (st1, .ok false)
  | (st1, true) =>
    let st2 := (test_database_connectivity env st1).1
    (st2, .error "AttributeError: no attribute test_environment_variables".data)

/-- The strict verdict expression of `run_all_tests` (line 382):
`self.tests_passed == self.tests_run`. -/
def strictPass (passed total : Nat) : Bool := passed == total

/-- `main`: run the suite inside a `try` whose handlers
(`KeyboardInterrupt`, `Exception`) both return exit code 1; on a normal
verdict the report is written first (a sink failure raises and lands in the
same handlers), and then the verdict alone picks exit 0 or 1. -/
def main (env : Env) : Nat :=
  match run_all_tests env initSt with
  | (_, .error _) => 1
  | (_, .ok success) =>
    if env.reportWriteOk then (if success then 0 else 1) else 1

end BackendTest

namespace BackendTestSimple

/-!
Embedding of `backend_test_simple.py`.  Note: as shipped this file does not
even parse — lines 135 and 155 contain an f-string with empty braces, which
is a Python `SyntaxError` — so the script always exits 1 at import time.
The functions embedded here are the syntactically well-formed ones the
claims cite, modelled from their source text.
-/

/-- The mutable fields of the simplified tester (`__init__`, lines 23-26). -/
structure St where
  tests_run : Nat
  tests_passed : Nat
  test_results : List BackendTest.TestResult

/-- Fresh tester state. -/
def initSt : St := ⟨0, 0, []⟩

/-- `log_test` of the simplified script (identical bookkeeping to the full
script's `log_test`). -/
def log_test (st : St) (name : List Char) (success : Bool) (message : List Char) : St :=
  { st with
    tests_run := st.tests_run + 1
    tests_passed := st.tests_passed + (if success then 1 else 0)
    test_results := st.test_results ++ [⟨name, success, message⟩] }

/-- External world of the simplified script: the raw POST to
`/api/trpc/auth.me` used by `test_trpc_endpoint_availability`, as a
transport exception or a status plus a parse-or-fail body. -/
structure SEnv where
  authMePost : Except (List Char) (Nat × Except (List Char) Json)

/-- `test_trpc_endpoint_availability`: POST `auth.me`; statuses other than
200/401 fail; an inner `try` turns an unparseable body or a shape exception
into the `Invalid JSON response` failure; an error envelope succeeds exactly
when its message, lower-cased, contains `login` or `unauthorized`. -/
def test_trpc_endpoint_availability (env : SEnv) (st : St) : St × Bool :=
  let badJson :=
    (log_test st "tRPC Endpoints".data false "Invalid JSON response".data, false)
  match env.authMePost with
  | .error e =>
    (log_test st "tRPC Endpoints".data false ("Error: ".data ++ e), false)
  | .ok (status, body) =>
    if status == 200 || status == 401 then
      match body with
      | .error _ => badJson
      | .ok data =>
        match pyIn "error".data data with
        | .error _ => badJson
        | .ok false =>
          (log_test st "tRPC Endpoints".data true "tRPC endpoints available".data, true)
        | .ok true =>
          match pyIndex data "error".data with
          | .error _ => badJson
          | .ok ev =>
            match pyGetD ev "json".data (.obj []) with
            | .error _ => badJson
            | .ok jv =>
              match pyGetD jv "message".data (.str "".data) with
              | .error _ => badJson
              | .ok msgJ =>
                match pyLower msgJ with
                | .error _ => badJson
                | .ok low =>
                  if substr "login".data low || substr "unauthorized".data low then
                    (log_test st "tRPC Endpoints".data true
                      "tRPC endpoints available (auth required)".data, true)
                  else
                    (log_test st "tRPC Endpoints".data false
                      ("Unexpected error: ".data ++ pyStr msgJ), false)
    else
      (log_test st "tRPC Endpoints".data false ("HTTP ".data ++ natStr status), false)

/-- The integer significand of the IEEE-754 double nearest to `0.7`
(`0.7 = 3152519739159347 / 2^52` in binary64). -/
def m7 : Nat := 3152519739159347

/-- Bit length of a natural number, fuel-driven so that it reduces in the
kernel (sufficient fuel for every number appearing here). -/
def bitLen : Nat → Nat → Nat
  | 0, _ => 0
  | fuel + 1, n => if n == 0 then 0 else bitLen fuel (n / 2) + 1

/-- Round an integer numerator (scaled by `2^52`) to 53 significant bits,
round-to-nearest, ties-to-even: the exact value of the IEEE-double product
`total * 0.7` is `roundTo53 (total * m7) / 2^52`. -/
def roundTo53 (n : Nat) : Nat :=
  let L := bitLen 128 n
  if L ≤ 53 then n
  else
    let p := 2 ^ (L - 53)
    let q := n / p
    let r := n % p
    let h := p / 2
    if h < r then (q + 1) * p
    else if r < h then q * p
    else if q % 2 == 0 then q * p else (q + 1) * p

/-- The lenient verdict expression of `run_all_tests` (line 254):
`self.tests_passed >= (self.tests_run * 0.7)`.  Python compares the integer
with the double exactly, and the double `total * 0.7` equals
`roundTo53 (total * m7) / 2^52` exactly. -/
def lenientPass (passed total : Nat) : Bool :=
  roundTo53 (total * m7) ≤ passed * 2 ^ 52

end BackendTestSimple

/-!  Helper lemmas shared by the claim theorems.  -/

namespace BackendTest

theorem searchL_eq_none_iff (f : List Char → Option (List Char)) :
    ∀ l : List Char, searchL f l = none ↔ ∀ i, f (l.drop i) = none := by
  intro l
  induction l with
  | nil =>
    constructor
    · intro h i
      rw [List.drop_nil]
      simpa [searchL] using h
    · intro h
      have h0 := h 0
      simpa [searchL] using h0
  | cons c t ih =>
    cases h : f (c :: t) with
    | some r =>
      constructor
      · intro hno
        simp [searchL, h] at hno
      · intro hall
        have h0 := hall 0
        simp at h0
        rw [h0] at h
        cases h
    | none =>
      constructor
      · intro hno i
        have hno' : searchL f t = none := by simpa [searchL, h] using hno
        cases i with
        | zero => simpa using h
        | succ k =>
          rw [List.drop_succ_cons]
          exact (ih.mp hno') k
      · intro hall
        have : searchL f t = none := by
          apply ih.mpr
          intro i
          have := hall (i + 1)
          rwa [List.drop_succ_cons] at this
        simpa [searchL, h] using this

theorem searchL_eq_some_iff (f : List Char → Option (List Char)) :
    ∀ (l : List Char) (c : List Char),
      searchL f l = some c ↔
        ∃ i, f (l.drop i) = some c ∧ ∀ j < i, f (l.drop j) = none := by
  intro l
  induction l with
  | nil =>
    intro c
    constructor
    · intro h
      exact ⟨0, by simpa [searchL] using h, by omega⟩
    · rintro ⟨i, hi, -⟩
      rw [List.drop_nil] at hi
      simpa [searchL] using hi
  | cons a t ih =>
    intro c
    cases h : f (a :: t) with
    | some r =>
      constructor
      · intro hs
        have hrc : r = c := by simpa [searchL, h] using hs
        exact ⟨0, by simpa using h.trans (by rw [hrc]), by omega⟩
      · rintro ⟨i, hi, hj⟩
        cases i with
        | zero =>
          simp at hi
          rw [h] at hi
          simpa [searchL, h] using hi
        | succ k =>
          have := hj 0 (by omega)
          simp at this
          rw [this] at h
          cases h
    | none =>
      constructor
      · intro hs
        have hs' : searchL f t = some c := by simpa [searchL, h] using hs
        obtain ⟨i, hi, hj⟩ := (ih c).mp hs'
        refine ⟨i + 1, by simpa [List.drop_succ_cons] using hi, ?_⟩
        intro j hji
        cases j with
        | zero => simpa using h
        | succ k =>
          rw [List.drop_succ_cons]
          exact hj k (by omega)
      · rintro ⟨i, hi, hj⟩
        cases i with
        | zero =>
          simp at hi
          rw [hi] at h
          cases h
        | succ k =>
          rw [List.drop_succ_cons] at hi
          have hk : ∀ j < k, f (t.drop j) = none := by
            intro j hjk
            have := hj (j + 1) (by omega)
            rwa [List.drop_succ_cons] at this
          have : searchL f t = some c := (ih c).mpr ⟨k, hi, hk⟩
          simpa [searchL, h] using this

/-- `log_test` leaves `verification_code` unchanged. -/
theorem log_test_verification_code (st : St) (n : List Char) (s : Bool) (m : List Char) :
    (log_test st n s m).verification_code = st.verification_code := rfl

/-- `test_server_health` appends exactly one result, named
`Server Health Check`, and returns its success flag. -/
theorem test_server_health_shape (env : Env) (st : St) :
    ∃ b m, test_server_health env st = (log_test st "Server Health Check".data b m, b) := by
  unfold test_server_health
  rcases env.rootGet with e | ⟨code, text⟩
  · exact ⟨false, "Connection error: ".data ++ e, rfl⟩
  · by_cases h : (code == 200 || code == 404) = true
    · exact ⟨true, "Server is running (HTTP ".data ++ natStr code ++ ")".data, by simp [h]⟩
    · refine ⟨false, "HTTP ".data ++ natStr code ++ ": ".data ++ text.take 200, ?_⟩
      simp only [Bool.not_eq_true] at h
      simp [h]

/-- `test_database_connectivity` appends exactly one result, named
`Database Connectivity`, and only extends the ghost call list. -/
theorem test_database_connectivity_shape (env : Env) (st : St) :
    ∃ b m, (test_database_connectivity env st).1
        = log_test (logCall st "auth.me".data true (Json.obj []))
            "Database Connectivity".data b m := by
  unfold test_database_connectivity
  dsimp only
  repeat' split
  all_goals exact ⟨_, _, rfl⟩

/-- `test_user_signup` never writes `verification_code` (it only appends a
result and records its call). -/
theorem test_user_signup_verification_code (env : Env) (st : St) :
    (test_user_signup env st).1.verification_code = st.verification_code := by
  unfold test_user_signup
  dsimp only
  split
  · rfl
  · split
    · rfl
    · rfl
    · split
      · rfl
      · rfl

end BackendTest

namespace BackendTestSimple

/-- Ceiling division versus multiplication: `⌈a/b⌉ ≤ p ↔ a ≤ p*b`. -/
theorem ceil_div_le_iff (a b p : Nat) (hb : 0 < b) :
    (a + (b - 1)) / b ≤ p ↔ a ≤ p * b := by
  rw [← Nat.not_lt, Nat.lt_iff_add_one_le, Nat.le_div_iff_mul_le hb]
  have hpb : (p + 1) * b = p * b + b := by ring
  rw [hpb]
  omega

set_option maxRecDepth 100000 in
set_option maxHeartbeats 2000000 in
/-- For every probe count that can occur here, the IEEE-double threshold
`total * 0.7` has the same ceiling as the exact rational `7 * total / 10`. -/
theorem lenient_ceil_eq : ∀ t : Nat, t ≤ 1000 →
    (roundTo53 (t * m7) + (2 ^ 52 - 1)) / 2 ^ 52 = (7 * t + 9) / 10 := by
  decide

end BackendTestSimple

/-!  Concrete environments used by closed theorems and witnesses.  -/

namespace BackendTest

/-- A server whose root URL refuses connections. -/
def envDown : Env :=
  ⟨.error "Connection refused".data, fun _ _ _ => .resp 200 (.error []), none, true⟩

/-- The failure envelope carrying a given message value. -/
def errEnvelope (m : Json) : Json :=
  .obj [("error".data, .obj [("json".data, .obj [("message".data, m)])])]

/-- A healthy server: root answers HTTP 200 and every tRPC call answers the
auth-required failure envelope. -/
def envUp : Env :=
  ⟨.ok (200, []), fun _ _ _ => .resp 200 (.ok (errEnvelope (.str "You must be logged in".data))),
   none, true⟩

/-- A server whose tRPC responses are not JSON. -/
def envBadBody : Env :=
  ⟨.ok (200, []),
   fun _ _ _ => .resp 500 (.error "<html>Internal Server Error</html>".data), none, true⟩

/-- A healthy transport whose log window is the given text. -/
def envLogs (logs : List Char) : Env :=
  ⟨.ok (200, []), fun _ _ _ => .resp 200 (.error []), some logs, true⟩

/-- A log window holding two matching lines; the second one is the more
recent (later) line of the `tail` output. -/
def logsTwoLines : List Char :=
  "VERIFICATION CODE: 111111\nVERIFICATION CODE: 222222".data

end BackendTest

/-!  Claim theorems.  -/

/-- The bookkeeping invariant of the result log: the run counter is the
number of logged results and the pass counter is the number of successful
ones. -/
def InvCounts (st : BackendTest.St) : Prop :=
  st.tests_run = st.test_results.length ∧
  st.tests_passed = (st.test_results.filter (fun r => r.success)).length

/-- C9: after every call to `log_test` the counters satisfy the invariant
(run counter = number of results, pass counter = number of successful
results), the invariant is preserved by every further call, it holds of the
initial state, and consequently `passed ≤ total` (so the derived
`failed = total - passed` is non-negative). -/
theorem c9_log_test_invariant (st : BackendTest.St) (name : List Char) (s : Bool)
    (msg : List Char) (h : InvCounts st) :
    InvCounts (BackendTest.log_test st name s msg)
  ∧ (BackendTest.log_test st name s msg).tests_passed
      ≤ (BackendTest.log_test st name s msg).tests_run
  ∧ InvCounts BackendTest.initSt := by
  obtain ⟨h1, h2⟩ := h
  have hinv : InvCounts (BackendTest.log_test st name s msg) := by
    constructor
    · simp [BackendTest.log_test, h1]
    · cases s <;> simp [BackendTest.log_test, h2, List.filter_append]
  refine ⟨hinv, ?_, ⟨rfl, rfl⟩⟩
  rw [hinv.1, hinv.2]
  exact List.length_filter_le _ _

/-- Witness for C9: the invariant holds of the initial state and of the
state after one `log_test` call. -/
theorem c9_log_test_invariant_witness :
    InvCounts BackendTest.initSt
  ∧ InvCounts (BackendTest.log_test BackendTest.initSt "Server Health Check".data true []) :=
  have h0 : InvCounts BackendTest.initSt := ⟨rfl, rfl⟩
  ⟨h0, (c9_log_test_invariant BackendTest.initSt "Server Health Check".data true [] h0).1⟩

/-- C4: the lenient grading expression `tests_passed >= tests_run * 0.7`
(with `0.7` an IEEE double) passes exactly when
`passed ≥ ⌈total * 7/10⌉`, i.e. `7 * total ≤ 10 * passed`, for every total
up to 1000; in particular 7 of 10 probes pass and 6 of 10 fail; and the
strict expression `tests_passed == tests_run` passes exactly on equality. -/
theorem c4_grading_policy (t : Nat) (ht : t ≤ 1000) :
    (∀ p : Nat, BackendTestSimple.lenientPass p t = true ↔ 7 * t ≤ 10 * p)
  ∧ BackendTestSimple.lenientPass 7 10 = true
  ∧ BackendTestSimple.lenientPass 6 10 = false
  ∧ (∀ p n : Nat, BackendTest.strictPass p n = true ↔ p = n) := by
  refine ⟨?_, by decide, by decide, ?_⟩
  · intro p
    have hc := BackendTestSimple.lenient_ceil_eq t ht
    have h1 := BackendTestSimple.ceil_div_le_iff
      (BackendTestSimple.roundTo53 (t * BackendTestSimple.m7)) (2 ^ 52) p (by positivity)
    have h2 := BackendTestSimple.ceil_div_le_iff (7 * t) 10 p (by norm_num)
    constructor
    · intro h
      have hle : BackendTestSimple.roundTo53 (t * BackendTestSimple.m7) ≤ p * 2 ^ 52 := by
        simpa [BackendTestSimple.lenientPass] using h
      have := h2.mp (by rw [← hc]; exact h1.mpr hle)
      omega
    · intro h
      have hle : BackendTestSimple.roundTo53 (t * BackendTestSimple.m7) ≤ p * 2 ^ 52 := by
        apply h1.mp
        rw [hc]
        exact h2.mpr (by omega)
      simpa [BackendTestSimple.lenientPass] using hle
  · intro p n
    simp [BackendTest.strictPass]

/-- Witness for C4 at a run of 10 probes. -/
theorem c4_grading_policy_witness :
    (10 ≤ 1000)
  ∧ BackendTestSimple.lenientPass 7 10 = true
  ∧ BackendTestSimple.lenientPass 6 10 = false :=
  ⟨by omega, (c4_grading_policy 10 (by omega)).2.1, (c4_grading_policy 10 (by omega)).2.2.1⟩

/-- C5: whenever a tRPC response body fails JSON parsing,
`make_trpc_request` returns normally (never raises) with the error
dictionary carrying the status code and the first 200 characters of the raw
body. -/
theorem c5_malformed_response (env : BackendTest.Env) (procedure : List Char)
    (input_data : Json) (isGet : Bool) (status : Nat) (text : List Char)
    (h : env.call procedure isGet input_data = .resp status (.error text)) :
    BackendTest.make_trpc_request env procedure input_data isGet
      = .ok (.obj [("error".data, .str ("Invalid JSON response: ".data ++ text.take 200)),
                   ("status_code".data, .num status)])
  ∧ (text.take 200).length ≤ 200 := by
  constructor
  · unfold BackendTest.make_trpc_request
    rw [h]
  · rw [List.length_take]
    exact Nat.min_le_left _ _

/-- Witness for C5: a concrete HTML error page. -/
theorem c5_malformed_response_witness :
    BackendTest.envBadBody.call "auth.me".data true (Json.obj [])
      = .resp 500 (.error "<html>Internal Server Error</html>".data)
  ∧ BackendTest.make_trpc_request BackendTest.envBadBody "auth.me".data (Json.obj []) true
      = .ok (.obj [("error".data,
              .str ("Invalid JSON response: ".data
                     ++ ("<html>Internal Server Error</html>".data).take 200)),
             ("status_code".data, .num 500)]) :=
  ⟨rfl,
   (c5_malformed_response BackendTest.envBadBody "auth.me".data (Json.obj []) true 500
      "<html>Internal Server Error</html>".data rfl).1⟩

/-- Counterexample to C3: a log window whose two matching lines carry
`111111` (older) and `222222` (more recent); the scan returns `111111`,
the code of the *oldest* matching line, not the most recent one. -/
theorem c3_counterexample :
    BackendTest.get_verification_code_from_logs (BackendTest.envLogs BackendTest.logsTwoLines)
      = some "111111".data
  ∧ BackendTest.get_verification_code_from_logs (BackendTest.envLogs BackendTest.logsTwoLines)
      ≠ some "222222".data := by
  constructor
  · rfl
  · decide

/-- C3 (amended): the log scan searches the window from oldest to most
recent text and returns the *first* (oldest) match; the generic
`VERIFICATION CODE:` pattern takes precedence over the per-identity pattern
across the whole window, regardless of position. -/
theorem c3_amended (logs c : List Char) :
    BackendTest.get_verification_code_from_logs (BackendTest.envLogs logs) = some c ↔
      ((∃ i, BackendTest.matchPat1At (logs.drop i) = some c ∧
            ∀ j < i, BackendTest.matchPat1At (logs.drop j) = none)
       ∨ ((∀ i, BackendTest.matchPat1At (logs.drop i) = none)
          ∧ ∃ i, BackendTest.matchPat2At (logs.drop i) = some c ∧
              ∀ j < i, BackendTest.matchPat2At (logs.drop j) = none)) := by
  have hget : BackendTest.get_verification_code_from_logs (BackendTest.envLogs logs)
      = (match BackendTest.searchL BackendTest.matchPat1At logs with
         | some c0 => some c0
         | none => BackendTest.searchL BackendTest.matchPat2At logs) := rfl
  rw [hget]
  cases h1 : BackendTest.searchL BackendTest.matchPat1At logs with
  | some c0 =>
    constructor
    · intro h
      simp only [] at h
      injection h with hc
      subst hc
      exact Or.inl ((BackendTest.searchL_eq_some_iff _ logs _).mp h1)
    · rintro (⟨i, hi, hj⟩ | ⟨hall, -⟩)
      · have := (BackendTest.searchL_eq_some_iff BackendTest.matchPat1At logs c).mpr ⟨i, hi, hj⟩
        rw [h1] at this
        simpa using this
      · have := (BackendTest.searchL_eq_none_iff BackendTest.matchPat1At logs).mpr hall
        rw [h1] at this
        cases this
  | none =>
    have hall1 : ∀ i, BackendTest.matchPat1At (logs.drop i) = none :=
      (BackendTest.searchL_eq_none_iff _ logs).mp h1
    constructor
    · intro h
      simp only [] at h
      exact Or.inr ⟨hall1, (BackendTest.searchL_eq_some_iff _ logs c).mp h⟩
    · rintro (⟨i, hi, -⟩ | ⟨-, hex⟩)
      · rw [hall1 i] at hi
        cases hi
      · simpa using (BackendTest.searchL_eq_some_iff _ logs c).mpr hex

/-- C1 (evaluation of the code at the failing input): when Connectivity
fails (`envDown`), the run stops with exactly the one `Server Health Check`
result and the verdict `False`; but when Connectivity succeeds (`envUp`),
`run_all_tests` does *not* go on to execute the remaining probes — after the
`Database Connectivity` probe it raises `AttributeError` on the undefined
method `test_environment_variables`, leaving exactly two results. -/
theorem c1_orchestrator_evaluation :
    ((BackendTest.run_all_tests BackendTest.envDown BackendTest.initSt).1.test_results.map
        BackendTest.TestResult.test = ["Server Health Check".data])
  ∧ (BackendTest.run_all_tests BackendTest.envDown BackendTest.initSt).2 = .ok false
  ∧ ((BackendTest.run_all_tests BackendTest.envUp BackendTest.initSt).1.test_results.map
        BackendTest.TestResult.test
      = ["Server Health Check".data, "Database Connectivity".data])
  ∧ (BackendTest.run_all_tests BackendTest.envUp BackendTest.initSt).2
      = .error "AttributeError: no attribute test_environment_variables".data :=
  ⟨rfl, rfl, rfl, rfl⟩

/-- Counterexample to C7: a run (`envUp`) in which every produced probe
result passes — so the strict grading policy judges the run a pass — and the
report sink is writable, yet the process exit code is 1 (the undefined
method raises before the verdict is computed), not the 0 the claim
requires. -/
theorem c7_counterexample :
    BackendTest.main BackendTest.envUp = 1
  ∧ (BackendTest.run_all_tests BackendTest.envUp BackendTest.initSt).1.tests_run = 2
  ∧ (BackendTest.run_all_tests BackendTest.envUp BackendTest.initSt).1.tests_passed = 2
  ∧ BackendTest.strictPass
      (BackendTest.run_all_tests BackendTest.envUp BackendTest.initSt).1.tests_passed
      (BackendTest.run_all_tests BackendTest.envUp BackendTest.initSt).1.tests_run = true
  ∧ BackendTest.envUp.reportWriteOk = true :=
  ⟨rfl, rfl, rfl, rfl, rfl⟩

/-- C7 (amended): `backend_test.py` exits 1 on **every** run, whatever the
environment: a failing health check yields the verdict `False` (exit 1,
whether or not the report write succeeds), and a passing health check leads
to the propagating `AttributeError`, caught by the top-level handler (exit
1).  The grading verdict therefore never produces exit code 0, and a report
sink failure never changes the exit code (it is 1 either way). -/
theorem c7_amended (env : BackendTest.Env) : BackendTest.main env = 1 := by
  unfold BackendTest.main BackendTest.run_all_tests
  obtain ⟨b, m, hEq⟩ := BackendTest.test_server_health_shape env BackendTest.initSt
  rw [hEq]
  cases b
  · cases h : env.reportWriteOk <;> simp [h]
  · rfl

/-- C10: in every full-plan run of `backend_test.py` no result named
`Verify Code` is ever produced (whatever the environment), and
`test_user_signup` — the only probe executed before the
`if self.verification_code:` guard could be reached — never writes the
`verification_code` field. -/
theorem c10_verify_code_never_runs (env : BackendTest.Env) :
    (((BackendTest.run_all_tests env BackendTest.initSt).1.test_results.map
        BackendTest.TestResult.test).contains "Verify Code".data = false)
  ∧ ∀ st : BackendTest.St,
      (BackendTest.test_user_signup env st).1.verification_code = st.verification_code := by
  constructor
  · unfold BackendTest.run_all_tests
    obtain ⟨b, m, hEq⟩ := BackendTest.test_server_health_shape env BackendTest.initSt
    rw [hEq]
    cases b
    · simp [BackendTest.log_test, BackendTest.initSt]
    · obtain ⟨b2, m2, hEq2⟩ := BackendTest.test_database_connectivity_shape env
        (BackendTest.log_test BackendTest.initSt "Server Health Check".data true m)
      dsimp only
      rw [hEq2]
      simp [BackendTest.log_test, BackendTest.logCall, BackendTest.initSt]
  · intro st
    exact BackendTest.test_user_signup_verification_code env st

namespace BackendTest

/-- The check the guess loop (and the verification call) performs for one
code: issue the `auth.verifyCode` request and evaluate the success test;
either step may raise. -/
def guessEval (env : Env) (code : List Char) : Except (List Char) Bool :=
  match make_trpc_request env "auth.verifyCode".data (verifyData code) false with
  | .error e => .error e
  | .ok resp => checkSuccess resp

/-- The guess loop on the empty list logs the distinct `no code available`
failure and returns `False`. -/
theorem tryGuess_nil (env : Env) (st : St) :
    tryGuess env st []
      = (log_test st "Verify Code".data false "No valid verification code found".data,
         .ok false) := rfl

/-- One step of the guess loop: when the service's answer for `code`
evaluates to `b` without raising, the loop either stops with `code`
(`b = true`) or records the call and moves on (`b = false`). -/
theorem tryGuess_cons (env : Env) (st : St) (code : List Char) (rest : List (List Char))
    (b : Bool) (hg : guessEval env code = .ok b) :
    tryGuess env st (code :: rest)
      = if b then
          (log_test
            { logCall st "auth.verifyCode".data false (verifyData code) with
                verification_code := some code }
            "Verify Code".data true
            ("Email verification successful with code: ".data ++ code), .ok true)
        else
          tryGuess env (logCall st "auth.verifyCode".data false (verifyData code)) rest := by
  conv_lhs => unfold tryGuess
  dsimp only
  cases hm : make_trpc_request env "auth.verifyCode".data (verifyData code) false with
  | error e => simp [guessEval, hm] at hg
  | ok resp =>
    have hs : checkSuccess resp = .ok b := by simpa [guessEval, hm] using hg
    dsimp only
    rw [hs]
    cases b
    · rfl
    · rfl

/-- When the log scan finds a code, `test_verify_code` stores exactly that
code, issues exactly one `auth.verifyCode` call carrying it (no guess
calls), and, when the service accepts it, logs the success result. -/
theorem test_verify_code_log_some (env : Env) (st : St) (c : List Char)
    (h : get_verification_code_from_logs env = some c) :
    (test_verify_code env st).1.verification_code = some c
  ∧ (test_verify_code env st).1.calls
      = st.calls ++ [("auth.verifyCode".data, false, verifyData c)]
  ∧ (guessEval env c = .ok true →
       (test_verify_code env st).2 = .ok true
     ∧ (test_verify_code env st).1.test_results
         = st.test_results
           ++ [⟨"Verify Code".data, true, "Email verification successful".data⟩]) := by
  unfold test_verify_code
  rw [h]
  dsimp only
  cases hm : make_trpc_request env "auth.verifyCode".data (verifyData c) false with
  | error e =>
    exact ⟨rfl, rfl, fun hg => by simp [guessEval, hm] at hg⟩
  | ok resp =>
    dsimp only
    cases hs : checkSuccess resp with
    | error e =>
      dsimp only
      exact ⟨rfl, rfl, fun hg => by simp [guessEval, hm, hs] at hg⟩
    | ok bb =>
      cases bb
      · dsimp only
        cases hgm : getErrMsg resp with
        | error e =>
          exact ⟨rfl, rfl, fun hg => by simp [guessEval, hm, hs] at hg⟩
        | ok msgJ =>
          exact ⟨rfl, rfl, fun hg => by simp [guessEval, hm, hs] at hg⟩
      · exact ⟨rfl, rfl, fun _ => ⟨rfl, rfl⟩⟩

end BackendTest

namespace BackendTest

/-- A service whose `sendVerificationCode` success payload carries the
verification code `775210` directly. -/
def envPayloadCode : Env :=
  ⟨.ok (200, []),
   fun _ _ _ => .resp 200 (.ok (.obj [("result".data,
      .obj [("data".data,
        .obj [("success".data, .bool true), ("code".data, .str "775210".data)])])])),
   none, true⟩

/-- A run in which the backend log carries `VERIFICATION CODE: 775210` and
the service accepts every verification call with the success envelope. -/
def envIssued : Env :=
  ⟨.ok (200, []),
   fun _ _ _ => .resp 200 (.ok (.obj [("result".data,
      .obj [("data".data, .obj [("success".data, .bool true)])])])),
   some "VERIFICATION CODE: 775210".data, true⟩

/-- A run whose log tail carries `VERIFICATION CODE: 482913`; no tRPC call
returns a parseable body, so a fallback guess could never succeed. -/
def envLogHit : Env := envLogs "2024 VERIFICATION CODE: 482913 sent".data

end BackendTest

/-- C2: Secret Discovery inside the Verification probe.  (a) When the log
scan yields a code, that code is stored and the probe issues exactly one
`auth.verifyCode` call carrying it — no guess call is attempted.  (b) When
no log-derived code exists, the fixed guesses `123456`, `000000`, `111111`
are tried in order, the first accepted one is stored, and when the service
accepts none the probe stores no code and records the
`No valid verification code found` failure instead of raising. -/
theorem c2_secret_discovery (env : BackendTest.Env) (st : BackendTest.St) :
    (∀ c, BackendTest.get_verification_code_from_logs env = some c →
        (BackendTest.test_verify_code env st).1.verification_code = some c
      ∧ (BackendTest.test_verify_code env st).1.calls
          = st.calls ++ [("auth.verifyCode".data, false, BackendTest.verifyData c)])
  ∧ (BackendTest.get_verification_code_from_logs env = none →
      (BackendTest.guessEval env "123456".data = .ok true →
            (BackendTest.test_verify_code env st).1.verification_code = some "123456".data
          ∧ (BackendTest.test_verify_code env st).2 = .ok true)
    ∧ (BackendTest.guessEval env "123456".data = .ok false →
       BackendTest.guessEval env "000000".data = .ok true →
            (BackendTest.test_verify_code env st).1.verification_code = some "000000".data
          ∧ (BackendTest.test_verify_code env st).2 = .ok true)
    ∧ (BackendTest.guessEval env "123456".data = .ok false →
       BackendTest.guessEval env "000000".data = .ok false →
       BackendTest.guessEval env "111111".data = .ok true →
            (BackendTest.test_verify_code env st).1.verification_code = some "111111".data
          ∧ (BackendTest.test_verify_code env st).2 = .ok true)
    ∧ (BackendTest.guessEval env "123456".data = .ok false →
       BackendTest.guessEval env "000000".data = .ok false →
       BackendTest.guessEval env "111111".data = .ok false →
            (BackendTest.test_verify_code env st).1.verification_code = none
          ∧ (BackendTest.test_verify_code env st).2 = .ok false
          ∧ (BackendTest.test_verify_code env st).1.test_results
              = st.test_results
                ++ [⟨"Verify Code".data, false,
                     "No valid verification code found".data⟩])) := by
  constructor
  · intro c h
    obtain ⟨h1, h2, -⟩ := BackendTest.test_verify_code_log_some env st c h
    exact ⟨h1, h2⟩
  · intro hnone
    have hunf : BackendTest.test_verify_code env st
        = BackendTest.tryGuess env { st with verification_code := none }
            BackendTest.testCodes := by
      unfold BackendTest.test_verify_code
      rw [hnone]
    rw [hunf]
    rw [show BackendTest.testCodes
          = ["123456".data, "000000".data, "111111".data] from rfl]
    refine ⟨?_, ?_, ?_, ?_⟩
    · intro h1
      rw [BackendTest.tryGuess_cons env _ _ _ true h1]
      exact ⟨rfl, rfl⟩
    · intro h1 h2
      rw [BackendTest.tryGuess_cons env _ _ _ false h1]
      simp only [if_neg (by simp : ¬ (false = true))]
      rw [BackendTest.tryGuess_cons env _ _ _ true h2]
      exact ⟨rfl, rfl⟩
    · intro h1 h2 h3
      rw [BackendTest.tryGuess_cons env _ _ _ false h1]
      simp only [if_neg (by simp : ¬ (false = true))]
      rw [BackendTest.tryGuess_cons env _ _ _ false h2]
      simp only [if_neg (by simp : ¬ (false = true))]
      rw [BackendTest.tryGuess_cons env _ _ _ true h3]
      exact ⟨rfl, rfl⟩
    · intro h1 h2 h3
      rw [BackendTest.tryGuess_cons env _ _ _ false h1]
      simp only [if_neg (by simp : ¬ (false = true))]
      rw [BackendTest.tryGuess_cons env _ _ _ false h2]
      simp only [if_neg (by simp : ¬ (false = true))]
      rw [BackendTest.tryGuess_cons env _ _ _ false h3]
      simp only [if_neg (by simp : ¬ (false = true))]
      rw [BackendTest.tryGuess_nil]
      exact ⟨rfl, rfl, rfl⟩

/-- Witness for C2: injecting the log line `VERIFICATION CODE: 482913`
makes discovery return `482913`, with exactly the one verification call. -/
theorem c2_secret_discovery_witness :
    BackendTest.get_verification_code_from_logs BackendTest.envLogHit
      = some "482913".data
  ∧ (BackendTest.test_verify_code BackendTest.envLogHit BackendTest.initSt).1.verification_code
      = some "482913".data
  ∧ (BackendTest.test_verify_code BackendTest.envLogHit BackendTest.initSt).1.calls
      = BackendTest.initSt.calls
        ++ [("auth.verifyCode".data, false, BackendTest.verifyData "482913".data)] :=
  have h : BackendTest.get_verification_code_from_logs BackendTest.envLogHit
      = some "482913".data := by decide
  ⟨h,
   ((c2_secret_discovery BackendTest.envLogHit BackendTest.initSt).1 "482913".data h).1,
   ((c2_secret_discovery BackendTest.envLogHit BackendTest.initSt).1 "482913".data h).2⟩

/-- Counterexample to C8: the Issuance probe succeeds on a response whose
payload carries the code `775210` directly, yet `verification_code` remains
`None` — the code is *not* written into the run state. -/
theorem c8_counterexample :
    (BackendTest.test_user_signup BackendTest.envPayloadCode BackendTest.initSt).2 = .ok true
  ∧ (BackendTest.test_user_signup BackendTest.envPayloadCode BackendTest.initSt).1.verification_code
      = none :=
  ⟨rfl, rfl⟩

/-- C8 (amended): `test_user_signup` never writes the verification code into
the run state, even when the payload carries it; the code reaches the
Verification probe only through the log scan (or the guess list), and when
the log scan yields a code the probe calls the verification endpoint with
exactly that code and reports success on the success envelope. -/
theorem c8_amended :
    (∀ env st, (BackendTest.test_user_signup env st).1.verification_code
        = st.verification_code)
  ∧ (∀ env st c,
       BackendTest.get_verification_code_from_logs env = some c →
       BackendTest.guessEval env c = .ok true →
         (BackendTest.test_verify_code env st).2 = .ok true
       ∧ (BackendTest.test_verify_code env st).1.verification_code = some c
       ∧ (BackendTest.test_verify_code env st).1.calls
           = st.calls ++ [("auth.verifyCode".data, false, BackendTest.verifyData c)]
       ∧ (BackendTest.test_verify_code env st).1.test_results
           = st.test_results
             ++ [⟨"Verify Code".data, true, "Email verification successful".data⟩]) := by
  constructor
  · intro env st
    exact BackendTest.test_user_signup_verification_code env st
  · intro env st c h hacc
    obtain ⟨h1, h2, h3⟩ := BackendTest.test_verify_code_log_some env st c h
    obtain ⟨h4, h5⟩ := h3 hacc
    exact ⟨h4, h1, h2, h5⟩

/-- Witness for C8 (amended): the log carries `775210`, the service accepts
it, and the probe calls the endpoint with exactly that code and succeeds. -/
theorem c8_amended_witness :
    BackendTest.get_verification_code_from_logs BackendTest.envIssued
      = some "775210".data
  ∧ BackendTest.guessEval BackendTest.envIssued "775210".data = .ok true
  ∧ (BackendTest.test_verify_code BackendTest.envIssued BackendTest.initSt).2 = .ok true
  ∧ (BackendTest.test_verify_code BackendTest.envIssued BackendTest.initSt).1.calls
      = BackendTest.initSt.calls
        ++ [("auth.verifyCode".data, false, BackendTest.verifyData "775210".data)] :=
  have h1 : BackendTest.get_verification_code_from_logs BackendTest.envIssued
      = some "775210".data := by decide
  have h2 : BackendTest.guessEval BackendTest.envIssued "775210".data = .ok true := rfl
  ⟨h1, h2,
   (c8_amended.2 BackendTest.envIssued BackendTest.initSt "775210".data h1 h2).1,
   (c8_amended.2 BackendTest.envIssued BackendTest.initSt "775210".data h1 h2).2.2.1⟩

namespace BackendTest

/-- A healthy transport whose every tRPC call answers the failure envelope
with the given message string. -/
def envMsg (m : List Char) : Env :=
  ⟨.ok (200, []), fun _ _ _ => .resp 200 (.ok (errEnvelope (.str m))), none, true⟩

/-- The grading of the knowledge-base probe against an error envelope with
message `m`: success iff `m` contains `UNAUTHORIZED` (case-sensitively) or
its lower-casing contains `authentication`. -/
theorem test_knowledge_base_graded (m : List Char) (st : St) :
    (test_knowledge_base_endpoints (envMsg m) st).2
      = (substr "UNAUTHORIZED".data m
          || substr "authentication".data (m.map Char.toLower)) := by
  unfold test_knowledge_base_endpoints
  dsimp only
  rw [show make_trpc_request (envMsg m) "brain.getStats".data (Json.obj []) true
        = Except.ok (errEnvelope (Json.str m)) from rfl]
  dsimp only
  rw [show pyIn "error".data (errEnvelope (Json.str m)) = Except.ok true from rfl]
  dsimp only
  rw [show pyIndex (errEnvelope (Json.str m)) "error".data
        = Except.ok (Json.obj [("json".data, Json.obj [("message".data, Json.str m)])])
        from rfl]
  dsimp only
  rw [show pyGetD (Json.obj [("json".data, Json.obj [("message".data, Json.str m)])])
          "json".data (Json.obj [])
        = Except.ok (Json.obj [("message".data, Json.str m)]) from rfl]
  dsimp only
  rw [show pyGetD (Json.obj [("message".data, Json.str m)]) "message".data
          (Json.str "Unknown error".data)
        = Except.ok (Json.str m) from rfl]
  dsimp only
  rw [show pyIn "UNAUTHORIZED".data (Json.str m)
        = Except.ok (substr "UNAUTHORIZED".data m) from rfl]
  cases h1 : substr "UNAUTHORIZED".data m
  · dsimp only
    rw [show pyLower (Json.str m) = Except.ok (m.map Char.toLower) from rfl]
    dsimp only
    cases h2 : substr "authentication".data (m.map Char.toLower)
    · simp
    · simp
  · simp

end BackendTest

/-- Counterexample to C6: the error message `unauthorized` (lower case)
contains `unauthorized` case-insensitively, yet the knowledge-base
authorization probe of `backend_test.py` grades the envelope as a failure —
its check is case-sensitive. -/
theorem c6_counterexample :
    (BackendTest.test_knowledge_base_endpoints
        (BackendTest.envMsg "unauthorized".data) BackendTest.initSt).2 = false
  ∧ substr "unauthorized".data ("unauthorized".data.map Char.toLower) = true :=
  ⟨rfl, by decide⟩

/-- C6 (amended): in `backend_test.py` the knowledge-base probe grades an
error envelope as success exactly when the message contains `UNAUTHORIZED`
**case-sensitively** or contains `authentication` case-insensitively; the
spec scenario `message = "UNAUTHORIZED"` is indeed graded success.  Only
`backend_test_simple.py`'s availability probe checks `unauthorized`
case-insensitively (for any qualifying HTTP status). -/
theorem c6_amended :
    (∀ m st, (BackendTest.test_knowledge_base_endpoints (BackendTest.envMsg m) st).2
        = (substr "UNAUTHORIZED".data m
            || substr "authentication".data (m.map Char.toLower)))
  ∧ (BackendTest.test_knowledge_base_endpoints
        (BackendTest.envMsg "UNAUTHORIZED".data) BackendTest.initSt).2 = true
  ∧ (∀ (m : List Char) (st : BackendTestSimple.St) (status : Nat),
       (status == 200 || status == 401) = true →
       substr "unauthorized".data (m.map Char.toLower) = true →
       (BackendTestSimple.test_trpc_endpoint_availability
          ⟨.ok (status, .ok (BackendTest.errEnvelope (.str m)))⟩ st).2 = true) := by
  refine ⟨BackendTest.test_knowledge_base_graded, rfl, ?_⟩
  intro m st status hstat hsub
  unfold BackendTestSimple.test_trpc_endpoint_availability
  dsimp only
  rw [hstat, if_pos (rfl : true = true)]
  rw [show pyIn "error".data (BackendTest.errEnvelope (Json.str m)) = Except.ok true from rfl]
  dsimp only
  rw [show pyIndex (BackendTest.errEnvelope (Json.str m)) "error".data
        = Except.ok (Json.obj [("json".data, Json.obj [("message".data, Json.str m)])])
        from rfl]
  dsimp only
  rw [show pyGetD (Json.obj [("json".data, Json.obj [("message".data, Json.str m)])])
          "json".data (Json.obj [])
        = Except.ok (Json.obj [("message".data, Json.str m)]) from rfl]
  dsimp only
  rw [show pyGetD (Json.obj [("message".data, Json.str m)]) "message".data
          (Json.str "".data)
        = Except.ok (Json.str m) from rfl]
  dsimp only
  rw [show pyLower (Json.str m) = Except.ok (m.map Char.toLower) from rfl]
  dsimp only
  simp [hsub]

/-- Witness for C6 (amended): the uppercase scenario against the simple
variant's availability probe, status 200. -/
theorem c6_amended_witness :
    ((200 == 200 || 200 == 401) = true)
  ∧ substr "unauthorized".data ("UNAUTHORIZED".data.map Char.toLower) = true
  ∧ (BackendTestSimple.test_trpc_endpoint_availability
        ⟨.ok (200, .ok (BackendTest.errEnvelope (.str "UNAUTHORIZED".data)))⟩
        BackendTestSimple.initSt).2 = true :=
  ⟨by decide, by decide,
   c6_amended.2.2 "UNAUTHORIZED".data BackendTestSimple.initSt 200 (by decide) (by decide)⟩
